import Mathlib

/-!
Shallow embedding of `src/dodal/devices/aperturescatterguard.py`:
the aperture/scatterguard safe-move coordinator.

Coordinates are modelled as rationals (`ℚ`).  Each motor axis is a record of
the fields the coordinator reads (`user_readback`, `user_setpoint`,
`motor_done_move`, `motor_resolution`) together with a `moveOk` flag giving
the outcome of the completion handle returned by an issued `set` (move_to)
on that axis.  Side effects of a request are recorded as an event trace:
device-state reads, issued `move_to` calls, and the blocking `wait()` call.

Python-semantics note, load-bearing for several claims below:
`AperturePositions.match_to_name` (source lines 50-64) is decorated
`@classmethod`, so its `self` parameter is bound to the class itself.  Its
first statement, `assert AperturePositions.position_valid(present_position)`,
accesses the *instance* method `position_valid` through the class, producing
a plain unbound function, and calls it with a single argument; Python binds
`self := present_position` and raises `TypeError` for the missing `pos`
argument.  Consequently `match_to_name` raises `TypeError` on every input,
before the registry table is ever consulted (the later
`AperturePositions._distance_check(position_constant, present_position)`
call, with its own missing `present` argument and the nonexistent
`self.tolerance` attribute, is unreachable).  `ApertureScatterguard.set`
calls `self._update_name(pos)` -- which calls `match_to_name` -- *outside*
its try/except (which catches only `AssertionError`) and *before*
`_safe_move_within_datacollection_range`, so every `set` call that passes
the table/membership assertions raises `TypeError` and never reaches the
safe-move routine.
-/

/-- A position is a 5-tuple
`(miniap_x, miniap_y, miniap_z, scatterguard_x, scatterguard_y)`
(source line 14: `Aperture5d = Tuple[float, float, float, float, float]`). -/
structure Aperture5d where
  miniap_x : ℚ
  miniap_y : ℚ
  miniap_z : ℚ
  scatterguard_x : ℚ
  scatterguard_y : ℚ
deriving DecidableEq, Repr

/-- The position-name enum (source lines 21-26). -/
inductive PositionName where
  | LARGE
  | MEDIUM
  | SMALL
  | INVALID
  | ROBOT_LOAD
deriving DecidableEq, Repr

/-- The `AperturePositions` dataclass (source lines 29-41): the four
registered calibrated 5-tuples and the 1 µm tolerance constant. -/
structure AperturePositions where
  LARGE : Aperture5d
  MEDIUM : Aperture5d
  SMALL : Aperture5d
  ROBOT_LOAD : Aperture5d
  TOLERANCE_MM : ℚ := 1 / 1000
deriving DecidableEq, Repr

/-- `AperturePositions.position_valid` (source lines 99-104):
`pos in [self.LARGE, self.MEDIUM, self.SMALL, self.ROBOT_LOAD]`,
Python `in` over tuples of floats, i.e. exact component-wise equality with
no tolerance. -/
def position_valid (t : AperturePositions) (pos : Aperture5d) : Bool :=
  decide (pos = t.LARGE ∨ pos = t.MEDIUM ∨ pos = t.SMALL ∨ pos = t.ROBOT_LOAD)

/-- The possible error values raised or carried by a request. -/
inductive MoveError where
  /-- `InvalidApertureMove` set as the exception of the returned `Status`
  when aperture z is not settled (source lines 149-157). -/
  | stillMoving
  /-- `InvalidApertureMove` raised when the current aperture z setpoint is
  outside tolerance of the target z (source lines 161-166). -/
  | zToleranceExceeded
  /-- A sub-move completion handle resolved with failure on this axis. -/
  | axisFailed (a : String)
  /-- `InvalidApertureMove` raised from the failed assertions at the top of
  `set` (source lines 123-127): table not loaded, or target not a member. -/
  | invalidMoveAssert
  /-- Python `TypeError`: `position_valid` called unbound through the class
  with its `pos` argument missing (source line 52, reached via
  `_update_name` → `match_to_name`). -/
  | typeErr
deriving DecidableEq, Repr

/-- `AperturePositions.match_to_name` (source lines 50-64).  Decorated
`@classmethod`, so `self` is the class; its first statement
`assert AperturePositions.position_valid(present_position)` calls the
instance method unbound with one argument, and Python raises `TypeError`
(missing positional argument `pos`) on every input.  The matching loop
below it is unreachable. -/
def match_to_name (_present_position : Aperture5d) : Except MoveError PositionName :=
  .error .typeErr

/-- The five physical axes. -/
inductive Axis where
  | apX
  | apY
  | apZ
  | sgX
  | sgY
deriving DecidableEq, Repr

/-- Display name of an axis, used to label a failed sub-move. -/
def Axis.label : Axis → String
  | .apX => "aperture.x"
  | .apY => "aperture.y"
  | .apZ => "aperture.z"
  | .sgX => "scatterguard.x"
  | .sgY => "scatterguard.y"

/-- One observable side effect of a request: a device-state read, an issued
`move_to` (ophyd `set`) call, or the blocking `wait()` on the phase-1
combined status. -/
inductive Event where
  /-- `self.aperture.z.motor_done_move.get()` (source line 147). -/
  | readZDoneMove
  /-- `self.aperture.z.user_setpoint.get()` (source line 158). -/
  | readZSetpoint
  /-- `self.aperture.z.motor_resolution.get()` (source line 159). -/
  | readZResolution
  /-- `self.aperture.y.user_readback.get()` (source line 169). -/
  | readYReadback
  /-- A `move_to` set-point issued to axis `a` with value `v`. -/
  | moveIssued (a : Axis) (v : ℚ)
  /-- The blocking `wait()` call on the phase-1 combined status. -/
  | waitCalled
deriving DecidableEq, Repr

/-- An event trace. -/
abbrev Trace := List Event

/-- `Event.isMoveIssue e` holds when `e` is an issued `move_to`. -/
def Event.isMoveIssue : Event → Bool
  | .moveIssued _ _ => true
  | _ => false

/-- `Event.isIssueOn a e` holds when `e` is an issued `move_to` on axis `a`. -/
def Event.isIssueOn (a : Axis) : Event → Bool
  | .moveIssued b _ => decide (b = a)
  | _ => false

/-- `Event.isApertureIssue e`: an issued `move_to` on aperture x, y or z. -/
def Event.isApertureIssue : Event → Bool
  | .moveIssued .apX _ => true
  | .moveIssued .apY _ => true
  | .moveIssued .apZ _ => true
  | _ => false

/-- `Event.isScatterguardIssue e`: an issued `move_to` on scatterguard x or
y. -/
def Event.isScatterguardIssue : Event → Bool
  | .moveIssued .sgX _ => true
  | .moveIssued .sgY _ => true
  | _ => false

/-- State of one motor axis, as observed by the coordinator, plus the
outcome (`moveOk`) that a `move_to` issued to it would resolve with. -/
structure AxisState where
  userReadback : ℚ
  userSetpoint : ℚ
  motorDoneMove : Bool
  motorResolution : ℚ
  moveOk : Bool
deriving DecidableEq, Repr

/-- State of the five axes of the aperture/scatterguard pair. -/
structure DeviceState where
  apX : AxisState
  apY : AxisState
  apZ : AxisState
  sgX : AxisState
  sgY : AxisState
deriving DecidableEq, Repr

/-- The resolution outcome of a request. -/
inductive Outcome where
  /-- A `Status`/`AndStatus` was returned that resolves successfully. -/
  | ok
  /-- A `Status`/`AndStatus` was returned that resolves with failure `e`. -/
  | failedStatus (e : MoveError)
  /-- An exception `e` propagated out of the call. -/
  | raised (e : MoveError)
deriving DecidableEq, Repr

/-- First failure of a conjunction of completion handles: the leftmost axis
in combination order whose `moveOk` is false, if any. -/
def combineFail (l : List (Axis × Bool)) : Option Axis :=
  (l.find? (fun p => !p.2)).map Prod.fst

/-- `APERTURE_Z_TOLERANCE = 3` (source line 112): number of MRES steps. -/
def APERTURE_Z_TOLERANCE : ℚ := 3

/-- `ApertureScatterguard._safe_move_within_datacollection_range`
(source lines 131-196).  Reads aperture-z DMOV; if not settled, returns a
`Status` carrying `InvalidApertureMove` with no moves issued.  Otherwise
reads the aperture-z setpoint and resolution and raises if the setpoint is
strictly outside `3 × resolution` of the target z.  Otherwise reads the
aperture-y readback and orders the two-stage move: scatterguard x/y first
(issued, then a blocking `wait()`) when the target aperture y is strictly
greater than the current readback, else aperture x/y/z first; a phase-1
failure raises out of `wait()` before any phase-2 move is issued; phase 2
is issued without waiting and its conjunction with the resolved phase-1
status is returned. -/
def safe_move_within_datacollection_range
    (d : DeviceState) (aperture_x aperture_y aperture_z : ℚ)
    (scatterguard_x scatterguard_y : ℚ) : Trace × Outcome :=
  if d.apZ.motorDoneMove = false then
    ([.readZDoneMove], .failedStatus .stillMoving)
  else if |d.apZ.userSetpoint - aperture_z| >
      APERTURE_Z_TOLERANCE * d.apZ.motorResolution then
    ([.readZDoneMove, .readZSetpoint, .readZResolution],
     .raised .zToleranceExceeded)
  else if aperture_y > d.apY.userReadback then
    match combineFail [(.sgX, d.sgX.moveOk), (.sgY, d.sgY.moveOk)] with
    | some a =>
      ([.readZDoneMove, .readZSetpoint, .readZResolution, .readYReadback,
        .moveIssued .sgX scatterguard_x, .moveIssued .sgY scatterguard_y,
        .waitCalled],
       .raised (.axisFailed a.label))
    | none =>
      match combineFail
          [(.apX, d.apX.moveOk), (.apY, d.apY.moveOk),
           (.apZ, d.apZ.moveOk)] with
      | some a =>
        ([.readZDoneMove, .readZSetpoint, .readZResolution, .readYReadback,
          .moveIssued .sgX scatterguard_x, .moveIssued .sgY scatterguard_y,
          .waitCalled, .moveIssued .apX aperture_x,
          .moveIssued .apY aperture_y, .moveIssued .apZ aperture_z],
         .failedStatus (.axisFailed a.label))
      | none =>
        ([.readZDoneMove, .readZSetpoint, .readZResolution, .readYReadback,
          .moveIssued .sgX scatterguard_x, .moveIssued .sgY scatterguard_y,
          .waitCalled, .moveIssued .apX aperture_x,
          .moveIssued .apY aperture_y, .moveIssued .apZ aperture_z],
         .ok)
  else
    match combineFail
        [(.apX, d.apX.moveOk), (.apY, d.apY.moveOk),
         (.apZ, d.apZ.moveOk)] with
    | some a =>
      ([.readZDoneMove, .readZSetpoint, .readZResolution, .readYReadback,
        .moveIssued .apX aperture_x, .moveIssued .apY aperture_y,
        .moveIssued .apZ aperture_z, .waitCalled],
       .raised (.axisFailed a.label))
    | none =>
      match combineFail [(.sgX, d.sgX.moveOk), (.sgY, d.sgY.moveOk)] with
      | some a =>
        ([.readZDoneMove, .readZSetpoint, .readZResolution, .readYReadback,
          .moveIssued .apX aperture_x, .moveIssued .apY aperture_y,
          .moveIssued .apZ aperture_z, .waitCalled,
          .moveIssued .sgX scatterguard_x, .moveIssued .sgY scatterguard_y],
         .failedStatus (.axisFailed a.label))
      | none =>
        ([.readZDoneMove, .readZSetpoint, .readZResolution, .readYReadback,
          .moveIssued .apX aperture_x, .moveIssued .apY aperture_y,
          .moveIssued .apZ aperture_z, .waitCalled,
          .moveIssued .sgX scatterguard_x, .moveIssued .sgY scatterguard_y],
         .ok)

/-- Coordinator state: the optionally loaded positions table
(`aperture_positions`, source line 110, `None` until
`load_aperture_positions` is called) and the cached name
(`aperture_name`, source line 111, initially `INVALID`). -/
structure CoordState where
  aperture_positions : Option AperturePositions
  aperture_name : PositionName
deriving DecidableEq, Repr

/-- `ApertureScatterguard.load_aperture_positions` (source lines 114-116):
stores the table. -/
def load_aperture_positions (c : CoordState) (positions : AperturePositions) :
    CoordState :=
  { c with aperture_positions := some positions }

/-- `ApertureScatterguard._update_name` (source lines 118-120): calls
`AperturePositions.match_to_name(pos)` and, on success, stores the result
in `aperture_name`.  Since `match_to_name` raises `TypeError` on every
input, this always propagates that error. -/
def update_name (c : CoordState) (pos : Aperture5d) :
    Except MoveError CoordState :=
  match match_to_name pos with
  | .error e => .error e
  | .ok n => .ok { c with aperture_name := n }

/-- `ApertureScatterguard.set` (source lines 122-129).  Asserts the table
is loaded and the target is a member (an `AssertionError` is re-raised as
`InvalidApertureMove`), then calls `_update_name` (which raises
`TypeError`, see `match_to_name`), then would tail-call
`_safe_move_within_datacollection_range` (unreachable in the source as
written).  Returns the event trace, the outcome, and the resulting cached
name. -/
def set_aperture (c : CoordState) (d : DeviceState) (pos : Aperture5d) :
    Trace × Outcome × PositionName :=
  match c.aperture_positions with
  | none => ([], .raised .invalidMoveAssert, c.aperture_name)
  | some t =>
    if position_valid t pos = false then
      ([], .raised .invalidMoveAssert, c.aperture_name)
    else
      match update_name c pos with
      | .error e => ([], .raised e, c.aperture_name)
      | .ok c2 =>
        let (tr, out) := safe_move_within_datacollection_range d
          pos.miniap_x pos.miniap_y pos.miniap_z
          pos.scatterguard_x pos.scatterguard_y
        (tr, out, c2.aperture_name)

/-- A sample positions table used for concrete witnesses: four distinct
calibrated slots. -/
def samplePositions : AperturePositions :=
  { LARGE := ⟨10, 11, 2, 5, 6⟩
    MEDIUM := ⟨20, 21, 2, 5, 6⟩
    SMALL := ⟨30, 31, 2, 5, 6⟩
    ROBOT_LOAD := ⟨40, 41, 2, 5, 6⟩ }

/-- A sample axis state: settled at 0 with resolution 1/100, whose issued
moves succeed. -/
def idleAxis : AxisState :=
  { userReadback := 0
    userSetpoint := 0
    motorDoneMove := true
    motorResolution := 1 / 100
    moveOk := true }

/-- A sample device state: all five axes idle, aperture z setpoint 2. -/
def idleDevice : DeviceState :=
  { apX := idleAxis
    apY := idleAxis
    apZ := { idleAxis with userSetpoint := 2 }
    sgX := idleAxis
    sgY := idleAxis }

/-- A device state whose aperture z axis reports not-settled. -/
def busyZDevice : DeviceState :=
  { idleDevice with
    apZ := { idleAxis with userSetpoint := 2, motorDoneMove := false } }

/-- A device state whose scatterguard x axis reports not-settled (a prior
move on it is unresolved) while aperture z is settled. -/
def busySgXDevice : DeviceState :=
  { idleDevice with sgX := { idleAxis with motorDoneMove := false } }

/-- A device state whose scatterguard x sub-move resolves with failure. -/
def failSgXDevice : DeviceState :=
  { idleDevice with sgX := { idleAxis with moveOk := false } }

/-- A device state whose aperture z setpoint sits exactly `3 × resolution`
away from 2, i.e. on the z-tolerance boundary for a target with z = 2. -/
def boundaryZDevice : DeviceState :=
  { idleDevice with
    apZ := { idleAxis with userSetpoint := 2 + 3 / 100 } }

/-- Claim C10: with no positions table loaded (`aperture_positions` still
`None`), `set` raises `InvalidApertureMove` from its first assertion,
with an empty event trace: no device state is read and no `move_to` is
issued, and the cached name is unchanged. -/
theorem C10_unloaded_table_rejected_before_device_reads
    (d : DeviceState) (n : PositionName) (p : Aperture5d) :
    set_aperture ⟨none, n⟩ d p = ([], .raised .invalidMoveAssert, n) := rfl

/-- Claim C8 is false on the code: `match_to_name`, evaluated at a probe
position equal to the registered LARGE slot of `samplePositions`, raises
`TypeError` (its first statement calls `position_valid` unbound through
the class with the `pos` argument missing) instead of returning
`PositionName.LARGE`; the first-match scan is unreachable. -/
theorem C8_match_raises_typeerror_at_registered_slot :
    match_to_name samplePositions.LARGE = .error .typeErr := rfl

/-- Claim C9 is false on the code: for every probe position,
`match_to_name` raises `TypeError` rather than returning a name; in
particular the no-match case is never reported via the `INVALID`
sentinel, and the query always fails. -/
theorem C9_match_always_raises (p : Aperture5d) :
    match_to_name p = .error .typeErr := rfl

/-- Claim C3 is false on the code: with a loaded table, target equal to
the registered LARGE slot, and the aperture z axis not settled
(`motor_done_move = false`), `set` raises `TypeError` out of
`_update_name` (which runs before `_safe_move_within_datacollection_range`)
instead of failing with the `AxisBusy`-style `InvalidApertureMove`; the
empty trace shows the z settle flag is never even read, though indeed no
`move_to` is issued. -/
theorem C3_busy_z_rejection_is_typeerror_not_axisbusy :
    set_aperture ⟨some samplePositions, .INVALID⟩ busyZDevice
      samplePositions.LARGE
      = ([], .raised .typeErr, .INVALID) := by
  norm_num [set_aperture, samplePositions, position_valid, update_name,
    match_to_name]

/-- Claim C1: inside the safe-move routine, once the settle and z-tolerance
checks pass, the phase ordering follows the travel direction along y.  If
the target aperture y is strictly greater than the current aperture y
readback, the trace is exactly the reads, the scatterguard x and y
`move_to` issues and the blocking `wait()`, followed by a tail containing
only aperture-axis issues; otherwise it is the reads, the aperture x, y
and z issues and the `wait()`, followed by a tail containing only
scatterguard-axis issues. -/
theorem C1_ordering_follows_travel_direction
    (d : DeviceState) (t : AperturePositions) (p : Aperture5d)
    (_hmem : position_valid t p = true)
    (hz : d.apZ.motorDoneMove = true)
    (htol : |d.apZ.userSetpoint - p.miniap_z| ≤
      APERTURE_Z_TOLERANCE * d.apZ.motorResolution) :
    (p.miniap_y > d.apY.userReadback →
      ∃ tail,
        (safe_move_within_datacollection_range d p.miniap_x p.miniap_y
          p.miniap_z p.scatterguard_x p.scatterguard_y).1
          = [.readZDoneMove, .readZSetpoint, .readZResolution, .readYReadback,
             .moveIssued .sgX p.scatterguard_x,
             .moveIssued .sgY p.scatterguard_y, .waitCalled] ++ tail
        ∧ ∀ e ∈ tail, e.isApertureIssue = true)
    ∧ (¬ p.miniap_y > d.apY.userReadback →
      ∃ tail,
        (safe_move_within_datacollection_range d p.miniap_x p.miniap_y
          p.miniap_z p.scatterguard_x p.scatterguard_y).1
          = [.readZDoneMove, .readZSetpoint, .readZResolution, .readYReadback,
             .moveIssued .apX p.miniap_x, .moveIssued .apY p.miniap_y,
             .moveIssued .apZ p.miniap_z, .waitCalled] ++ tail
        ∧ ∀ e ∈ tail, e.isScatterguardIssue = true) := by
  rw [safe_move_within_datacollection_range]
  rw [hz]
  simp only [Bool.true_eq_false, if_false]
  rw [if_neg (not_lt.mpr htol)]
  constructor
  · intro hy
    rw [if_pos hy]
    rcases h1 : combineFail [(.sgX, d.sgX.moveOk), (.sgY, d.sgY.moveOk)]
      with _ | a
    · rcases h2 : combineFail [(.apX, d.apX.moveOk), (.apY, d.apY.moveOk),
          (.apZ, d.apZ.moveOk)] with _ | b
      · exact ⟨[.moveIssued .apX p.miniap_x, .moveIssued .apY p.miniap_y,
          .moveIssued .apZ p.miniap_z], by simp [Event.isApertureIssue]⟩
      · exact ⟨[.moveIssued .apX p.miniap_x, .moveIssued .apY p.miniap_y,
          .moveIssued .apZ p.miniap_z], by simp [Event.isApertureIssue]⟩
    · exact ⟨[], by simp⟩
  · intro hy
    rw [if_neg hy]
    rcases h1 : combineFail [(.apX, d.apX.moveOk), (.apY, d.apY.moveOk),
        (.apZ, d.apZ.moveOk)] with _ | a
    · rcases h2 : combineFail [(.sgX, d.sgX.moveOk), (.sgY, d.sgY.moveOk)]
        with _ | b
      · exact ⟨[.moveIssued .sgX p.scatterguard_x,
          .moveIssued .sgY p.scatterguard_y],
          by simp [Event.isScatterguardIssue]⟩
      · exact ⟨[.moveIssued .sgX p.scatterguard_x,
          .moveIssued .sgY p.scatterguard_y],
          by simp [Event.isScatterguardIssue]⟩
    · exact ⟨[], by simp⟩

/-- Witness for C1 at a concrete input: settled device at aperture y 0,
target the registered LARGE slot with aperture y 11 (larger), so the
scatterguard moves and the wait come first and the tail holds only
aperture issues. -/
theorem C1_witness :
    ∃ tail,
      (safe_move_within_datacollection_range idleDevice 10 11 2 5 6).1
        = [.readZDoneMove, .readZSetpoint, .readZResolution, .readYReadback,
           .moveIssued .sgX 5, .moveIssued .sgY 6, .waitCalled] ++ tail
      ∧ ∀ e ∈ tail, e.isApertureIssue = true := by
  have h := C1_ordering_follows_travel_direction idleDevice samplePositions
    samplePositions.LARGE
    (by norm_num [position_valid, samplePositions])
    (by norm_num [idleDevice, idleAxis])
    (by norm_num [idleDevice, idleAxis, samplePositions, APERTURE_Z_TOLERANCE])
  exact h.1 (by norm_num [idleDevice, idleAxis, samplePositions])

/-- Claim C2: when the chosen phase-1 stage contains a sub-move whose
completion handle resolves with failure, the blocking `wait()` raises, the
whole call resolves with failure (the exception propagates), and no
phase-2 `move_to` is issued on the remaining stage. -/
theorem C2_phase1_failure_aborts_phase2
    (d : DeviceState) (ax ay az sx sy : ℚ)
    (hz : d.apZ.motorDoneMove = true)
    (htol : |d.apZ.userSetpoint - az| ≤
      APERTURE_Z_TOLERANCE * d.apZ.motorResolution)
    (hfail : (ay > d.apY.userReadback ∧
        (d.sgX.moveOk = false ∨ d.sgY.moveOk = false))
      ∨ (¬ ay > d.apY.userReadback ∧
        (d.apX.moveOk = false ∨ d.apY.moveOk = false ∨
          d.apZ.moveOk = false))) :
    (∃ a, (safe_move_within_datacollection_range d ax ay az sx sy).2
        = .raised (.axisFailed a))
    ∧ (ay > d.apY.userReadback →
        (safe_move_within_datacollection_range d ax ay az sx sy).1.any
          Event.isApertureIssue = false)
    ∧ (¬ ay > d.apY.userReadback →
        (safe_move_within_datacollection_range d ax ay az sx sy).1.any
          Event.isScatterguardIssue = false) := by
  rw [safe_move_within_datacollection_range]
  rw [hz]
  simp only [Bool.true_eq_false, if_false]
  rw [if_neg (not_lt.mpr htol)]
  rcases hfail with ⟨hy, hbad⟩ | ⟨hy, hbad⟩
  · rw [if_pos hy]
    obtain ⟨a, ha⟩ : ∃ a,
        combineFail [(.sgX, d.sgX.moveOk), (.sgY, d.sgY.moveOk)] = some a := by
      rcases hbad with h | h
      · exact ⟨.sgX, by simp [combineFail, h]⟩
      · rcases hb : d.sgX.moveOk with _ | _
        · exact ⟨.sgX, by simp [combineFail, hb]⟩
        · exact ⟨.sgY, by simp [combineFail, hb, h]⟩
    rw [ha]
    refine ⟨⟨a.label, rfl⟩, fun _ => by simp [Event.isApertureIssue],
      fun hy' => absurd hy hy'⟩
  · rw [if_neg hy]
    obtain ⟨a, ha⟩ : ∃ a,
        combineFail [(.apX, d.apX.moveOk), (.apY, d.apY.moveOk),
          (.apZ, d.apZ.moveOk)] = some a := by
      rcases hbad with h | h | h
      · exact ⟨.apX, by simp [combineFail, h]⟩
      · rcases hb : d.apX.moveOk with _ | _
        · exact ⟨.apX, by simp [combineFail, hb]⟩
        · exact ⟨.apY, by simp [combineFail, hb, h]⟩
      · rcases hb : d.apX.moveOk with _ | _
        · exact ⟨.apX, by simp [combineFail, hb]⟩
        · rcases hb2 : d.apY.moveOk with _ | _
          · exact ⟨.apY, by simp [combineFail, hb, hb2]⟩
          · exact ⟨.apZ, by simp [combineFail, hb, hb2, h]⟩
    rw [ha]
    refine ⟨⟨a.label, rfl⟩, fun hy' => absurd hy' hy,
      fun _ => by simp [Event.isScatterguardIssue]⟩

/-- Witness for C2 at a concrete input: the scatterguard x sub-move fails
while the target aperture y is larger than the current one, so the call
raises an axis failure and no aperture move is issued. -/
theorem C2_witness :
    (∃ a, (safe_move_within_datacollection_range failSgXDevice 10 11 2 5 6).2
        = .raised (.axisFailed a))
    ∧ (safe_move_within_datacollection_range failSgXDevice 10 11 2 5 6).1.any
        Event.isApertureIssue = false := by
  have h := C2_phase1_failure_aborts_phase2 failSgXDevice 10 11 2 5 6
    (by norm_num [failSgXDevice, idleDevice, idleAxis])
    (by norm_num [failSgXDevice, idleDevice, idleAxis, APERTURE_Z_TOLERANCE])
    (Or.inl ⟨by norm_num [failSgXDevice, idleDevice, idleAxis],
      Or.inl (by norm_num [failSgXDevice, idleDevice, idleAxis])⟩)
  exact ⟨h.1, h.2.1 (by norm_num [failSgXDevice, idleDevice, idleAxis])⟩

/-- Claim C4: each of the three validation rejections is side-effect-free.
The membership rejection in `set` produces an empty trace (no device reads,
no `move_to`) and leaves the cached `aperture_name` unchanged; the settle
(`AxisBusy`-style) and z-deviation rejections inside the safe-move routine
issue no `move_to` before failing, and that routine never touches the
cached name at all (it does not take the coordinator state as input). -/
theorem C4_validation_rejections_side_effect_free
    (c : CoordState) (d : DeviceState) (t : AperturePositions)
    (p : Aperture5d)
    (htab : c.aperture_positions = some t)
    (hmem : position_valid t p = false) :
    set_aperture c d p = ([], .raised .invalidMoveAssert, c.aperture_name)
    ∧ (d.apZ.motorDoneMove = false →
        (safe_move_within_datacollection_range d p.miniap_x p.miniap_y
          p.miniap_z p.scatterguard_x p.scatterguard_y).1.any
          Event.isMoveIssue = false)
    ∧ (d.apZ.motorDoneMove = true →
        |d.apZ.userSetpoint - p.miniap_z| >
          APERTURE_Z_TOLERANCE * d.apZ.motorResolution →
        (safe_move_within_datacollection_range d p.miniap_x p.miniap_y
          p.miniap_z p.scatterguard_x p.scatterguard_y).1.any
          Event.isMoveIssue = false) := by
  refine ⟨?_, ?_, ?_⟩
  · simp only [set_aperture, htab]
    rw [if_pos hmem]
  · intro hb
    rw [safe_move_within_datacollection_range, if_pos hb]
    simp [Event.isMoveIssue]
  · intro hz htol
    rw [safe_move_within_datacollection_range, hz]
    simp only [Bool.true_eq_false, if_false]
    rw [if_pos htol]
    simp [Event.isMoveIssue]

/-- Witness for C4 at a concrete input: a non-member target is rejected by
`set` with no events and an unchanged name, and the busy-z device issues
no move through the safe-move routine. -/
theorem C4_witness :
    set_aperture ⟨some samplePositions, .INVALID⟩ busyZDevice ⟨0, 0, 2, 0, 0⟩
      = ([], .raised .invalidMoveAssert, .INVALID)
    ∧ (safe_move_within_datacollection_range busyZDevice 0 0 2 0 0).1.any
        Event.isMoveIssue = false := by
  have h := C4_validation_rejections_side_effect_free
    ⟨some samplePositions, .INVALID⟩ busyZDevice samplePositions
    ⟨0, 0, 2, 0, 0⟩ rfl
    (by norm_num [position_valid, samplePositions])
  exact ⟨h.1, h.2.1 (by norm_num [busyZDevice, idleAxis])⟩

/-- Claim C5 is false on the code as stated: the settle check reads only
the aperture z axis, so a `move_to` can be issued to an axis whose own
prior move is unresolved.  Concretely, with scatterguard x reporting
not-settled (and aperture z settled), the safe-move routine still issues
a set-point to scatterguard x. -/
theorem C5_counterexample :
    busySgXDevice.sgX.motorDoneMove = false
    ∧ (safe_move_within_datacollection_range busySgXDevice 10 11 2 5 6).1.any
        (Event.isIssueOn .sgX) = true := by
  refine ⟨rfl, ?_⟩
  norm_num [safe_move_within_datacollection_range, busySgXDevice, idleDevice,
    idleAxis, APERTURE_Z_TOLERANCE, combineFail, Event.isIssueOn]

/-- Claim C5 as amended: the settle check gates only on the aperture z
axis.  If any `move_to` at all is issued by the safe-move routine, then
the aperture z axis reported settled; the other four axes' busy states
are never consulted and do not prevent the issue. -/
theorem C5_amended_only_z_settle_gates
    (d : DeviceState) (ax ay az sx sy : ℚ)
    (h : ((safe_move_within_datacollection_range d ax ay az sx sy).1.any
      Event.isMoveIssue) = true) :
    d.apZ.motorDoneMove = true := by
  by_contra hb
  rw [Bool.not_eq_true] at hb
  rw [safe_move_within_datacollection_range] at h
  simp only [hb, if_pos] at h
  simp [Event.isMoveIssue] at h

/-- Witness for the amended C5 at a concrete input: the idle device does
issue moves, and the theorem yields that its aperture z axis was
settled. -/
theorem C5_amended_witness :
    (safe_move_within_datacollection_range idleDevice 10 11 2 5 6).1.any
        Event.isMoveIssue = true
    ∧ idleDevice.apZ.motorDoneMove = true := by
  have hmove : (safe_move_within_datacollection_range
      idleDevice 10 11 2 5 6).1.any Event.isMoveIssue = true := by
    norm_num [safe_move_within_datacollection_range, idleDevice, idleAxis,
      APERTURE_Z_TOLERANCE, combineFail, Event.isMoveIssue]
  exact ⟨hmove, C5_amended_only_z_settle_gates idleDevice 10 11 2 5 6 hmove⟩

/-- Claim C6: membership is exact.  `position_valid` returns true iff the
probe equals one of the four registered 5-tuples component for component
(no tolerance), and a non-member target makes `set` fail with the
`InvalidApertureMove` assertion rejection, with an empty trace (zero
moves) and the cached name unchanged. -/
theorem C6_exact_membership_gate
    (t : AperturePositions) (c : CoordState) (d : DeviceState)
    (p : Aperture5d)
    (htab : c.aperture_positions = some t)
    (hmem : position_valid t p = false) :
    (∀ q : Aperture5d, position_valid t q = true ↔
      (q = t.LARGE ∨ q = t.MEDIUM ∨ q = t.SMALL ∨ q = t.ROBOT_LOAD))
    ∧ set_aperture c d p
      = ([], .raised .invalidMoveAssert, c.aperture_name) := by
  refine ⟨fun q => by simp [position_valid], ?_⟩
  simp only [set_aperture, htab]
  rw [if_pos hmem]

/-- Witness for C6 at a concrete input: a probe differing from the LARGE
slot only in its last coordinate is not a member and is rejected by `set`
with no events and an unchanged name. -/
theorem C6_witness :
    (position_valid samplePositions ⟨10, 11, 2, 5, 7⟩ = true ↔
      ((⟨10, 11, 2, 5, 7⟩ : Aperture5d) = samplePositions.LARGE
        ∨ (⟨10, 11, 2, 5, 7⟩ : Aperture5d) = samplePositions.MEDIUM
        ∨ (⟨10, 11, 2, 5, 7⟩ : Aperture5d) = samplePositions.SMALL
        ∨ (⟨10, 11, 2, 5, 7⟩ : Aperture5d) = samplePositions.ROBOT_LOAD))
    ∧ set_aperture ⟨some samplePositions, .SMALL⟩ idleDevice
        ⟨10, 11, 2, 5, 7⟩
      = ([], .raised .invalidMoveAssert, .SMALL) := by
  have h := C6_exact_membership_gate samplePositions
    ⟨some samplePositions, .SMALL⟩ idleDevice ⟨10, 11, 2, 5, 7⟩ rfl
    (by norm_num [position_valid, samplePositions])
  exact ⟨h.1 _, h.2⟩

/-- Claim C7: for a settled z axis and a registered target, the safe-move
routine fails with the z-deviation error exactly when the absolute
difference between the current aperture z setpoint and the target z is
strictly greater than `3 × resolution`; a difference of at most the
tolerance (the boundary included) passes validation. -/
theorem C7_z_tolerance_exact_boundary
    (d : DeviceState) (t : AperturePositions) (p : Aperture5d)
    (_hmem : position_valid t p = true)
    (hz : d.apZ.motorDoneMove = true) :
    ((safe_move_within_datacollection_range d p.miniap_x p.miniap_y
        p.miniap_z p.scatterguard_x p.scatterguard_y).2
      = .raised .zToleranceExceeded
    ↔ |d.apZ.userSetpoint - p.miniap_z| >
        APERTURE_Z_TOLERANCE * d.apZ.motorResolution) := by
  rw [safe_move_within_datacollection_range]
  rw [hz]
  simp only [Bool.true_eq_false, if_false]
  by_cases htol : |d.apZ.userSetpoint - p.miniap_z| >
      APERTURE_Z_TOLERANCE * d.apZ.motorResolution
  · simp [htol]
  · simp only [htol, if_false]
    constructor
    · intro hout
      exfalso
      by_cases hy : p.miniap_y > d.apY.userReadback
      · rw [if_pos hy] at hout
        rcases h1 : combineFail [(.sgX, d.sgX.moveOk), (.sgY, d.sgY.moveOk)]
          with _ | a
        · rw [h1] at hout
          rcases h2 : combineFail [(.apX, d.apX.moveOk), (.apY, d.apY.moveOk),
              (.apZ, d.apZ.moveOk)] with _ | b
          · rw [h2] at hout; simp at hout
          · rw [h2] at hout; simp at hout
        · rw [h1] at hout; simp at hout
      · rw [if_neg hy] at hout
        rcases h1 : combineFail [(.apX, d.apX.moveOk), (.apY, d.apY.moveOk),
            (.apZ, d.apZ.moveOk)] with _ | a
        · rw [h1] at hout
          rcases h2 : combineFail [(.sgX, d.sgX.moveOk),
              (.sgY, d.sgY.moveOk)] with _ | b
          · rw [h2] at hout; simp at hout
          · rw [h2] at hout; simp at hout
        · rw [h1] at hout; simp at hout
    · exact fun hcon => hcon.elim

/-- Witness for C7 at a concrete input sitting exactly on the boundary:
the current z setpoint differs from the target z by exactly
`3 × resolution`, and validation passes (the z-deviation error is not
raised). -/
theorem C7_witness :
    |boundaryZDevice.apZ.userSetpoint - (2 : ℚ)| =
      APERTURE_Z_TOLERANCE * boundaryZDevice.apZ.motorResolution
    ∧ (safe_move_within_datacollection_range boundaryZDevice 10 11 2 5 6).2
      ≠ .raised .zToleranceExceeded := by
  refine ⟨by norm_num [boundaryZDevice, idleAxis, APERTURE_Z_TOLERANCE],
    fun hout => ?_⟩
  have h := C7_z_tolerance_exact_boundary boundaryZDevice samplePositions
    samplePositions.LARGE
    (by norm_num [position_valid, samplePositions])
    (by norm_num [boundaryZDevice, idleAxis])
  exact absurd (h.mp hout)
    (by norm_num [boundaryZDevice, idleAxis, samplePositions,
      APERTURE_Z_TOLERANCE, abs_le])
